import Mathlib

/-!
Verification development for the audio-assist repository.

We shallowly embed the segmentation loop (`audio_handler.py`), the
LLM-client layer (`llm_client.py`), the configuration (`config.py`)
and the connection manager (`websocket_manager.py` / `main.py`), and
settle the stated properties against these embeddings.

Conventions of the embedding:
- Python byte buffers of signed 16-bit samples are lists of integers.
- Python floats that only ever hold exact small values (event-loop
  timestamps, the 2.0-second cooldown) are modelled as rationals.
- Temperatures such as 0.6 / 0.7 from `Config.MODEL_CONFIG` are stored
  as tenths (6 / 7) so that configurations stay decidably comparable.
- Async generators are modelled as functions from an abstract provider
  outcome (the chunks the remote service would deliver, or the point at
  which it raises) to the list of yielded fragments paired with an
  optional escaped exception; Python `try/except` is the `tryWrap`
  combinator on that pair.
- Quote characters appearing inside some Python error-message literals
  are elided from the corresponding string constants.
-/

/-- Python `l[-n:]` on a list. -/
def pySliceLast (l : List α) (n : Nat) : List α :=
  l.drop (l.length - n)

/-- Accumulating tokenizer behind `pySplitWs`: `cur` is the current word
reversed. -/
def wsSplitAux : List Char → List Char → List String
  | [], cur => if cur = [] then [] else [String.mk cur.reverse]
  | c :: cs, cur =>
    if c.isWhitespace then
      if cur = [] then wsSplitAux cs []
      else String.mk cur.reverse :: wsSplitAux cs []
    else wsSplitAux cs (c :: cur)

/-- Python `s.split()`: split on whitespace runs, dropping empty pieces. -/
def pySplitWs (s : String) : List String :=
  wsSplitAux s.data []

/-- Break a character list at the first `/`, when there is one. -/
def breakAtSlash : List Char → Option (List Char × List Char)
  | [] => none
  | c :: cs =>
    if c = '/' then some ([], cs)
    else (breakAtSlash cs).map (fun p => (c :: p.1, p.2))

/-- Python `s.split('/', 1)` when `s` contains a slash: the part before
the first slash and the remainder. `none` when `s` has no slash. -/
def pySplitFirstSlash (s : String) : Option (String × String) :=
  (breakAtSlash s.data).map (fun p => (String.mk p.1, String.mk p.2))

/-- Drop leading whitespace characters. -/
def dropWs : List Char → List Char
  | [] => []
  | c :: cs => if c.isWhitespace then dropWs cs else c :: cs

/-- Python `s.strip()`. -/
def pyStrip (s : String) : String :=
  String.mk (dropWs (dropWs s.data.reverse).reverse)

/-! ## config.py -/

namespace Config

def AUDIO_CHUNK_SIZE : Nat := 4096
def AUDIO_RATE : Nat := 16000
def SILENCE_THRESHOLD : Nat := 200

/-- `int(Config.SILENCE_DURATION * Config.AUDIO_RATE / Config.AUDIO_CHUNK_SIZE)`
with `SILENCE_DURATION = 1.5`; the product `1.5 * 16000 = 24000` is exact, and
`int` truncates toward zero on the positive quotient, which is `Nat` division. -/
def silenceThresholdFrames : Nat := (3 * AUDIO_RATE / 2) / AUDIO_CHUNK_SIZE

end Config

/-- Environment-derived configuration: which API keys are set and the
model names (defaults from `config.py`; `os.getenv` may override). -/
structure Env where
  openaiKey : Option String := none
  groqKey : Option String := none
  geminiKey : Option String := none
  cohereKey : Option String := none
  hfKey : Option String := none
  openaiModel : String := "gpt-3.5-turbo"
  groqModel : String := "llama-3.1-8b-instant"
  geminiModel : String := "gemini-2.5-flash-preview-05-20"
  ollamaModel : String := "llama3.2:1b"
  cohereModel : String := "command-light"
  hfModel : String := "microsoft/DialoGPT-medium"
deriving DecidableEq

/-- `Config.AVAILABLE_MODELS.values()`: the server-side allow-list.
Note there is no huggingface entry. -/
def availableModels (e : Env) : List String :=
  [ "groq/" ++ e.groqModel
  , "openai/" ++ e.openaiModel
  , "gemini/" ++ e.geminiModel
  , "ollama/" ++ e.ollamaModel
  , "cohere/" ++ e.cohereModel ]

/-- `Config.DEFAULT_MODEL_ID`. -/
def defaultModelId (e : Env) : String := "groq/" ++ e.groqModel

/-- One entry of `Config.MODEL_CONFIG` (temperature stored as tenths). -/
structure ModelConfig where
  realtimeProcessingLagMs : Nat
  silenceThresholdMs : Nat
  maxTokens : Nat
  temperatureTenths : Nat
deriving DecidableEq

/-- The `Config.MODEL_CONFIG` table. -/
def modelConfigFor (provider : String) : ModelConfig :=
  if provider = "groq" then ⟨200, 1200, 2000, 6⟩
  else if provider = "openai" then ⟨500, 1500, 1500, 7⟩
  else if provider = "gemini" then ⟨300, 1300, 2000, 6⟩
  else if provider = "ollama" then ⟨800, 2000, 1000, 7⟩
  else if provider = "cohere" then ⟨600, 1800, 1500, 7⟩
  else ⟨500, 1500, 1500, 7⟩

/-- `Config.get_model_config`: provider is the part before the first `/`
when the id contains one, else the `default` entry. -/
def getModelConfig (modelId : String) : ModelConfig :=
  match pySplitFirstSlash modelId with
  | some (p, _) => modelConfigFor p
  | none => modelConfigFor "default"

/-! ## llm_client.py: message building -/

/-- One `{role, content}` entry of a conversation history. -/
structure Msg where
  role : String
  content : String
deriving DecidableEq

/-- The system instruction of `BaseLLMClient._build_messages` (also the
first line of the Gemini prompt). -/
def baseSystemContent : String :=
  "You are a helpful AI assistant. Respond conversationally to what the user says. Keep responses concise but helpful."

/-- `BaseLLMClient._build_messages`: system instruction, then the last 10
history entries, then the new user text. -/
def buildMessages (text : String) (hist : List Msg) : List Msg :=
  Msg.mk "system" baseSystemContent :: pySliceLast hist 10 ++ [Msg.mk "user" text]

/-- The opening literal of `GeminiClient._build_gemini_prompt`. -/
def geminiPreamble : String :=
  "You are a helpful AI assistant. Respond conversationally to what the user says. Keep responses concise but helpful.\n\n"

/-- The loop body shared verbatim by `_build_gemini_prompt` and
`_build_hf_prompt`: render one history entry as a Human:/Assistant:
line, skipping other roles. -/
def promptStep (p : String) (m : Msg) : String :=
  if m.role = "user" then p ++ "Human: " ++ m.content ++ "\n"
  else if m.role = "assistant" then p ++ "Assistant: " ++ m.content ++ "\n"
  else p

/-- `GeminiClient._build_gemini_prompt`: preamble, the last 6 history
entries rendered as Human:/Assistant: lines, then the new user turn. -/
def buildGeminiPrompt (text : String) (hist : List Msg) : String :=
  (pySliceLast hist 6).foldl promptStep geminiPreamble
    ++ "Human: " ++ text ++ "\nAssistant:"

/-- The opening literal of `HuggingFaceClient._build_hf_prompt`. -/
def hfPreamble : String :=
  "You are a helpful AI assistant. Respond conversationally.\n\n"

/-- `HuggingFaceClient._build_hf_prompt`: its own (shorter) preamble, the
last 4 history entries, then the new user turn. -/
def buildHfPrompt (text : String) (hist : List Msg) : String :=
  (pySliceLast hist 4).foldl promptStep hfPreamble
    ++ "Human: " ++ text ++ "\nAssistant:"

/-- The loop body of `OllamaClient._messages_to_prompt`. -/
def ollamaStep (p : String) (m : Msg) : String :=
  if m.role = "system" then p ++ "System: " ++ m.content ++ "\n\n"
  else if m.role = "user" then p ++ "Human: " ++ m.content ++ "\n\n"
  else if m.role = "assistant" then p ++ "Assistant: " ++ m.content ++ "\n\n"
  else p

/-- `OllamaClient._messages_to_prompt`. -/
def messagesToPrompt (messages : List Msg) : String :=
  messages.foldl ollamaStep "" ++ "Assistant: "

/-- How one history entry is rendered into Cohere's `chat_history`. -/
def cohereEntry (m : Msg) : Option (String × String) :=
  if m.role = "user" then some ("USER", m.content)
  else if m.role = "assistant" then some ("CHATBOT", m.content)
  else none

/-- The `chat_history` list `CohereClient.get_streaming_response` builds
from the last 6 history entries; the request carries no system text. -/
def cohereChatHistory (hist : List Msg) : List (String × String) :=
  (pySliceLast hist 6).filterMap cohereEntry

/-! ## llm_client.py: streaming generators -/

/-- Behaviour of a remote streaming call: the chunks delivered before
either normal completion or an exception with the given message.
`fail cs e` covers an exception at call time (`cs = []`) or during
iteration (after the chunks `cs`). -/
inductive POutcome (χ : Type) where
  | ok (chunks : List χ)
  | fail (chunks : List χ) (msg : String)
deriving DecidableEq

/-- One NDJSON line of an Ollama response: a decoded object with a
`response` field, a decoded object without one, a JSON decode error
(silently skipped), or an empty line (skipped by `if line:`). -/
inductive OLine where
  | resp (s : String)
  | noResp
  | badJson
  | emptyLine
deriving DecidableEq

/-- One NDJSON line of a Cohere response: a `text-generation` event
carrying `chunk.get("text", "")`, another event type, a decode error,
or an empty line. -/
inductive CLine where
  | gen (t : String)
  | other
  | badJson
  | emptyLine
deriving DecidableEq

/-- The JSON body of a 200 HuggingFace response: a non-empty list whose
first element may carry `generated_text`, or any other JSON value with
the given `str()` rendering. -/
inductive HFResult where
  | listRes (generatedText : Option String)
  | nonList (repr : String)
deriving DecidableEq

/-- Outcome of the HuggingFace request: a 200 response with a JSON body,
a non-200 status with its body text, or an exception. -/
inductive HFOutcome where
  | ok (r : HFResult)
  | httpErr (status : Nat) (body : String)
  | exn (msg : String)
deriving DecidableEq

/-- `result[0].get("generated_text", "No response generated")` /
`str(result)` selection. -/
def hfResponseText : HFResult → String
  | .listRes gt => gt.getD "No response generated"
  | .nonList r => r

/-- `if chunk.choices[0].delta.content:` — `None` and `""` are falsy. -/
def openaiChunk : Option String → Option String
  | some s => if s = "" then none else some s
  | none => none

/-- `if chunk.text:` — the empty string is falsy. -/
def geminiChunk : String → Option String :=
  fun s => if s = "" then none else some s

/-- `if 'response' in chunk: yield chunk['response']`. -/
def ollamaChunk : OLine → Option String
  | .resp s => some s
  | _ => none

/-- `if chunk.get("event_type") == "text-generation": yield chunk.get("text", "")`. -/
def cohereChunk : CLine → Option String
  | .gen t => some t
  | _ => none

/-- The yields of a provider loop body, paired with the exception it
raises (if any) once the loop is past the last chunk. -/
def providerBody (f : χ → Option String) : POutcome χ → List String × Option String
  | .ok cs => (cs.filterMap f, none)
  | .fail cs e => (cs.filterMap f, some e)

/-- Python `try: ... except Exception as e: yield f"{name} Error: {e}"`
wrapped around a generator body: a raised exception becomes one final
yielded fragment and nothing escapes. -/
def tryWrap (name : String) : List String × Option String → List String × Option String
  | (ys, none) => (ys, none)
  | (ys, some e) => (ys ++ [name ++ " Error: " ++ e], none)

/-- `HuggingFaceClient.get_streaming_response`: on 200 the reply text is
split into words and re-emitted word by word with a trailing space; a
non-200 status yields one error fragment from inside the `try`; an
exception is caught by the `except` clause. -/
def hfStream : HFOutcome → List String × Option String
  | .ok r => ((pySplitWs (hfResponseText r)).map (fun w => w ++ " "), none)
  | .httpErr st body =>
      (["HuggingFace Error: " ++ toString st ++ " - " ++ body], none)
  | .exn e => tryWrap "HuggingFace" ([], some e)

/-- One call of some provider's `get_streaming_response`: the request
inputs together with the abstract behaviour of the remote service. -/
inductive Invocation where
  | openai (text : String) (hist : List Msg) (o : POutcome (Option String))
  | groq (text : String) (hist : List Msg) (o : POutcome (Option String))
  | gemini (text : String) (hist : List Msg) (o : POutcome String)
  | ollama (text : String) (hist : List Msg) (o : POutcome OLine)
  | cohere (text : String) (hist : List Msg) (o : POutcome CLine)
  | huggingface (text : String) (hist : List Msg) (o : HFOutcome)
deriving DecidableEq

/-- The fragments `get_streaming_response` yields and the exception that
escapes past the generator boundary (if any).  For OpenAI and Groq the
message build happens before the `try`, but `_build_messages` is total;
every fallible step of every binding sits inside its `try`. -/
def getStreamingResponse : Invocation → List String × Option String
  | .openai _ _ o => tryWrap "OpenAI" (providerBody openaiChunk o)
  | .groq _ _ o => tryWrap "Groq" (providerBody openaiChunk o)
  | .gemini _ _ o => tryWrap "Gemini" (providerBody geminiChunk o)
  | .ollama _ _ o => tryWrap "Ollama" (providerBody ollamaChunk o)
  | .cohere _ _ o => tryWrap "Cohere" (providerBody cohereChunk o)
  | .huggingface _ _ o => hfStream o

/-- Whether the invocation's outcome is a failure (exception or, for
HuggingFace, a non-200 status). -/
def isFailure : Invocation → Bool
  | .openai _ _ (.fail _ _) => true
  | .groq _ _ (.fail _ _) => true
  | .gemini _ _ (.fail _ _) => true
  | .ollama _ _ (.fail _ _) => true
  | .cohere _ _ (.fail _ _) => true
  | .huggingface _ _ (.httpErr _ _) => true
  | .huggingface _ _ (.exn _) => true
  | _ => false

/-- The fragments yielded before the failure point. -/
def preYields : Invocation → List String
  | .openai _ _ (.fail cs _) => cs.filterMap openaiChunk
  | .groq _ _ (.fail cs _) => cs.filterMap openaiChunk
  | .gemini _ _ (.fail cs _) => cs.filterMap geminiChunk
  | .ollama _ _ (.fail cs _) => cs.filterMap ollamaChunk
  | .cohere _ _ (.fail cs _) => cs.filterMap cohereChunk
  | _ => []

/-- The single terminal `<Provider> Error: <message>` fragment of a
failed invocation. -/
def errorFragment : Invocation → String
  | .openai _ _ (.fail _ e) => "OpenAI Error: " ++ e
  | .groq _ _ (.fail _ e) => "Groq Error: " ++ e
  | .gemini _ _ (.fail _ e) => "Gemini Error: " ++ e
  | .ollama _ _ (.fail _ e) => "Ollama Error: " ++ e
  | .cohere _ _ (.fail _ e) => "Cohere Error: " ++ e
  | .huggingface _ _ (.httpErr st body) =>
      "HuggingFace Error: " ++ toString st ++ " - " ++ body
  | .huggingface _ _ (.exn e) => "HuggingFace Error: " ++ e
  | _ => ""

/-- Concatenation of a fragment list (Python `+=` accumulation). -/
def joinStr (l : List String) : String :=
  l.foldr (fun a b => a ++ b) ""

/-- The provider's full reply text for a successfully completed call:
the concatenation of the content the service delivered. -/
def fullReply : Invocation → Option String
  | .openai _ _ (.ok cs) => some (joinStr (cs.filterMap id))
  | .groq _ _ (.ok cs) => some (joinStr (cs.filterMap id))
  | .gemini _ _ (.ok cs) => some (joinStr cs)
  | .ollama _ _ (.ok ls) => some (joinStr (ls.filterMap ollamaChunk))
  | .cohere _ _ (.ok ls) => some (joinStr (ls.filterMap cohereChunk))
  | .huggingface _ _ (.ok r) => some (hfResponseText r)
  | _ => none

/-- Whether the invocation uses the simulated (word-splitting) path. -/
def isSimulated : Invocation → Bool
  | .huggingface _ _ _ => true
  | _ => false

/-- What the simulated path actually reassembles: the reply's whitespace
runs collapsed to single spaces, with a trailing space per word. -/
def simulatedJoin (r : String) : String :=
  joinStr ((pySplitWs r).map (fun w => w ++ " "))

/-! ## audio_handler.py: silence-gated segmenter -/

/-- One raw PCM frame: the signed 16-bit samples `np.frombuffer` decodes. -/
abbrev Frame := List Int

/-- `np.abs(audio_array).mean() < Config.SILENCE_THRESHOLD`: for integer
samples the strict comparison of the mean against 200 is exactly
`sum |samples| < 200 * length`; an empty frame gives a NaN mean, whose
comparison is false, matching `0 < 0` here. -/
def isSilentFrame (f : Frame) : Bool :=
  (f.map Int.natAbs).sum < Config.SILENCE_THRESHOLD * f.length

/-- The loop state of `AudioHandler._listen_continuously`. -/
structure SegState where
  buffer : List Frame
  silence : Nat
deriving DecidableEq

/-- One iteration of the listening loop: append the frame, update the
silence counter, flush when the buffer holds more than 20 frames and the
counter strictly exceeds `silenceThresholdFrames`, then apply the
overflow trim `audio_buffer[-50:]` past 100 frames. -/
def segStep (s : SegState) (f : Frame) : SegState × Option (List Frame) :=
  let buf := s.buffer ++ [f]
  let sil := if isSilentFrame f then s.silence + 1 else 0
  if buf.length > 20 ∧ sil > Config.silenceThresholdFrames then
    (⟨[], 0⟩, some buf)
  else
    (⟨if buf.length > 100 then pySliceLast buf 50 else buf, sil⟩, none)

/-- Run the listening loop over a frame sequence, collecting the flushed
utterances in order. -/
def segRun (frames : List Frame) (s : SegState) : SegState × List (List Frame) :=
  frames.foldl
    (fun acc f =>
      let r := segStep acc.1 f
      (r.1, acc.2 ++ r.2.toList))
    (s, [])

/-- A frame whose mean absolute amplitude is 250 (loud). -/
def loudFrame : Frame := [250]

/-- A frame whose mean absolute amplitude is 0 (silent). -/
def silentFrame : Frame := [0]

/-! ## llm_client.py: factory -/

/-- A constructed client, identified by its provider and `model` field. -/
structure Client where
  provider : String
  modelName : String
deriving DecidableEq

/-- Python truthiness of an API-key value: unset or empty is falsy. -/
def keyPresent : Option String → Bool
  | none => false
  | some k => k ≠ ""

/-- `create_llm_client`: reject identifiers outside the allow-list,
split `provider/model_name` at the first slash, and fail fast when the
provider's credential is missing. -/
def createLlmClient (env : Env) (modelId : String) : Except String Client :=
  if modelId ∉ availableModels env then
    .error ("Model " ++ modelId ++ " is not allowed. Available models: "
      ++ String.intercalate ", " (availableModels env))
  else
    match pySplitFirstSlash modelId with
    | some (p, name) =>
      if p = "openai" then
        if keyPresent env.openaiKey then .ok ⟨p, name⟩
        else .error "OPENAI_API_KEY is not set in environment variables"
      else if p = "groq" then
        if keyPresent env.groqKey then .ok ⟨p, name⟩
        else .error "GROQ_API_KEY is not set in environment variables"
      else if p = "gemini" then
        if keyPresent env.geminiKey then .ok ⟨p, name⟩
        else .error "GEMINI_API_KEY is not set in environment variables"
      else if p = "ollama" then .ok ⟨p, name⟩
      else if p = "cohere" then
        if keyPresent env.cohereKey then .ok ⟨p, name⟩
        else .error "COHERE_API_KEY is not set in environment variables"
      else if p = "huggingface" then
        if keyPresent env.hfKey then .ok ⟨p, name⟩
        else .error "HUGGINGFACE_API_KEY is not set in environment variables"
      else .error ("Unknown LLM provider: " ++ p)
    | none =>
      .error ("Invalid model_id format. Expected provider/model_name, got " ++ modelId)

/-! ## websocket_manager.py -/

/-- Server-to-client events sent over one connection. -/
inductive Event where
  | error (content : String)
  | modelChanged (oldModel newModel : String)
  | transcription (content : String)
  | status (content : String)
  | responseChunk (content fullContent : String)
  | responseComplete (content : String)
  | historyCleared
  | listeningStarted
  | listeningStopped
deriving DecidableEq

/-- Per-connection state held by `ConnectionManager` (plus the
`_last_model_switch` attribute stashed on the websocket object, whose
`getattr` default is 0). -/
structure Session where
  history : List Msg
  client : Option Client
  modelConfig : ModelConfig
  lastModelSwitch : Rat
deriving DecidableEq

/-- `getattr(self.connection_llm_clients.get(websocket), 'model', 'unknown')`. -/
def oldModelOf (s : Session) : String :=
  match s.client with
  | some c => c.modelName
  | none => "unknown"

/-- `data.get("model")` rendered into the error f-string: `None` prints
as `"None"`. -/
def modelIdStr : Option String → String
  | none => "None"
  | some m => m

/-- `not new_model_id`: `None` or the empty string are falsy. -/
def modelFalsy : Option String → Bool
  | none => true
  | some m => m = ""

/-- `ConnectionManager.handle_model_change`, as a transition on the
session: validation against the allow-list, the 2-second cooldown, then
`_last_model_switch` is stamped and the factory runs; a factory
`ValueError` is caught and reported after the stamp.  (The inner
`update_realtime_config` call touches only the global audio handler and
its exceptions are swallowed by an inner `try`.) -/
def handleModelChange (env : Env) (now : Rat) (modelField : Option String)
    (s : Session) : Session × List Event :=
  if modelFalsy modelField = true ∨ modelIdStr modelField ∉ availableModels env then
    (s, [Event.error ("Invalid or disallowed model: " ++ modelIdStr modelField)])
  else if now - s.lastModelSwitch < 2 then
    (s, [Event.error "Model switching too frequently. Please wait a moment."])
  else
    match createLlmClient env (modelIdStr modelField) with
    | .error e =>
        ({ s with lastModelSwitch := now },
         [Event.error ("Model switch failed: " ++ e)])
    | .ok c =>
        ({ s with lastModelSwitch := now, client := some c,
                  modelConfig := getModelConfig (modelIdStr modelField) },
         [Event.modelChanged (oldModelOf s) (modelIdStr modelField)])

/-- The running `full_content` carried by successive `response_chunk`
events. -/
def chunkEvents (acc : String) : List String → List Event
  | [] => []
  | c :: cs => Event.responseChunk c (acc ++ c) :: chunkEvents (acc ++ c) cs

/-- The conversation history at the moment `handle_transcription` invokes
`get_streaming_response`: the stored history with the new user entry
already appended. -/
def providerCallHistory (s : Session) (text : String) : List Msg :=
  s.history ++ [Msg.mk "user" text]

/-- `ConnectionManager.handle_transcription` on one session, with the
fragments the session's client yields supplied as `reply`: echo the
transcription, emit the thinking status, stream the fragments, and
append the user and completed assistant entries to the history. -/
def handleTranscription (text : String) (reply : List String) (s : Session) :
    Session × List Event :=
  ({ s with history :=
      providerCallHistory s text ++ [Msg.mk "assistant" (joinStr reply)] },
   Event.transcription text :: Event.status "thinking" ::
     chunkEvents "" reply ++ [Event.responseComplete (joinStr reply)])

/-- A client-to-server message (`set_language` and audio control beyond
the two acknowledged types interact with the global audio handler and
are outside this model). -/
inductive ClientMsg where
  | textInput (content : Option String)
  | clearHistory
  | setModel (model : Option String)
  | startListening
  | stopListening
deriving DecidableEq

/-- `ConnectionManager.handle_message`: dispatch on the `type` field; a
`text_input` whose content strips to empty does nothing. -/
def handleMessage (env : Env) (now : Rat) (reply : List String)
    (m : ClientMsg) (s : Session) : Session × List Event :=
  match m with
  | .textInput content =>
      if pyStrip (content.getD "") ≠ "" then
        handleTranscription (content.getD "") reply s
      else (s, [])
  | .clearHistory => ({ s with history := [] }, [Event.historyCleared])
  | .setModel mf => handleModelChange env now mf s
  | .startListening => (s, [Event.listeningStarted])
  | .stopListening => (s, [Event.listeningStopped])

/-! ## main.py: broadcast -/

/-- The manager's connection registry: the `active_connections` list and
the per-connection session state (connections named by numbers). -/
structure Manager where
  active : List Nat
  sessions : Nat → Session

/-- Point update of the session map. -/
def updateAt (f : Nat → Session) (c : Nat) (s : Session) : Nat → Session :=
  fun x => if x = c then s else f x

/-- One connection's turn inside `broadcast_transcription`: run
`handle_transcription` for connection `c`, store its new session state
and record its events. -/
def broadcastStep (text : String) (replies : Nat → List String)
    (acc : Manager × List (Nat × Event)) (c : Nat) : Manager × List (Nat × Event) :=
  (⟨acc.1.active,
     updateAt acc.1.sessions c (handleTranscription text (replies c) (acc.1.sessions c)).1⟩,
   acc.2 ++ (handleTranscription text (replies c) (acc.1.sessions c)).2.map (fun e => (c, e)))

/-- `broadcast_transcription`: run `handle_transcription` once per
connection in `manager.active_connections`, in order; `replies c` is the
fragment stream connection `c`'s client produces for this text. -/
def broadcastTranscription (text : String) (replies : Nat → List String)
    (m : Manager) : Manager × List (Nat × Event) :=
  m.active.foldl (broadcastStep text replies) (m, [])

/-! ## Concrete instances used by witnesses and counterexamples -/

/-- An environment with every key unset and the default model names. -/
def env0 : Env := {}

/-- An environment whose Groq key is set. -/
def envGroq : Env := { groqKey := some "k" }

/-- A fresh session on the default Groq model. -/
def session0 : Session :=
  ⟨[], some ⟨"groq", "llama-3.1-8b-instant"⟩, modelConfigFor "groq", 0⟩

/-- A manager with two active connections, both fresh. -/
def manager0 : Manager := ⟨[0, 1], fun _ => session0⟩

/-! ## Helper lemmas -/

theorem pySliceLast_idem (l : List α) (n : Nat) :
    pySliceLast (pySliceLast l n) n = pySliceLast l n := by
  unfold pySliceLast
  rw [List.length_drop]
  have h : l.length - (l.length - n) - n = 0 := by omega
  rw [h, List.drop_zero]

theorem foldl_str_ext (f : String → Msg → String)
    (hf : ∀ p m, ∃ q, f p m = p ++ q) :
    ∀ (l : List Msg) (p : String), ∃ q, l.foldl f p = p ++ q := by
  intro l
  induction l with
  | nil => intro p; exact ⟨"", (String.append_empty p).symm⟩
  | cons m ms ih =>
    intro p
    obtain ⟨q1, hq1⟩ := hf p m
    obtain ⟨q2, hq2⟩ := ih (f p m)
    exact ⟨q1 ++ q2, by rw [List.foldl_cons, hq2, hq1, String.append_assoc]⟩

theorem promptStep_ext : ∀ p m, ∃ q, promptStep p m = p ++ q := by
  intro p m
  unfold promptStep
  by_cases h1 : m.role = "user"
  · refine ⟨"Human: " ++ m.content ++ "\n", ?_⟩
    rw [if_pos h1]
    simp [String.append_assoc]
  · rw [if_neg h1]
    by_cases h2 : m.role = "assistant"
    · refine ⟨"Assistant: " ++ m.content ++ "\n", ?_⟩
      rw [if_pos h2]
      simp [String.append_assoc]
    · exact ⟨"", by rw [if_neg h2, String.append_empty]⟩

theorem ollamaStep_ext : ∀ p m, ∃ q, ollamaStep p m = p ++ q := by
  intro p m
  unfold ollamaStep
  by_cases h0 : m.role = "system"
  · refine ⟨"System: " ++ m.content ++ "\n\n", ?_⟩
    rw [if_pos h0]
    simp [String.append_assoc]
  · rw [if_neg h0]
    by_cases h1 : m.role = "user"
    · refine ⟨"Human: " ++ m.content ++ "\n\n", ?_⟩
      rw [if_pos h1]
      simp [String.append_assoc]
    · rw [if_neg h1]
      by_cases h2 : m.role = "assistant"
      · refine ⟨"Assistant: " ++ m.content ++ "\n\n", ?_⟩
        rw [if_pos h2]
        simp [String.append_assoc]
      · exact ⟨"", by rw [if_neg h2, String.append_empty]⟩

theorem joinStr_filterMap_openaiChunk (cs : List (Option String)) :
    joinStr (cs.filterMap openaiChunk) = joinStr (cs.filterMap id) := by
  induction cs with
  | nil => rfl
  | cons c cs ih =>
    cases c with
    | none => simpa [openaiChunk] using ih
    | some s =>
      by_cases hs : s = ""
      · subst hs
        simpa [openaiChunk, joinStr, String.empty_append] using ih
      · simp only [List.filterMap_cons, openaiChunk, if_neg hs, id]
        simpa [joinStr] using congrArg (fun t => s ++ t) ih

theorem joinStr_filterMap_geminiChunk (cs : List String) :
    joinStr (cs.filterMap geminiChunk) = joinStr cs := by
  induction cs with
  | nil => rfl
  | cons c cs ih =>
    by_cases hc : c = ""
    · subst hc
      simpa [geminiChunk, joinStr, String.empty_append] using ih
    · simp only [List.filterMap_cons, geminiChunk, if_neg hc]
      simpa [joinStr] using congrArg (fun t => c ++ t) ih

/-! ## Claim C1 -/

/-- C1, counterexample: with 25 loud frames then 6 silent frames, the
single flushed utterance is NOT the 25 loud frames alone — the loop
appends each frame to the buffer before the silence check, so the six
trailing silent frames are flushed too. -/
theorem C1_counterexample :
    ¬ ((segRun (List.replicate 25 loudFrame ++ List.replicate 6 silentFrame)
          ⟨[], 0⟩).2 = [List.replicate 25 loudFrame]) := by
  decide

/-- C1, amended: `threshold_frames` is 5; 25 loud frames followed by 5
silent frames cause no flush, and the 6th consecutive silent frame
(6 > 5, strict comparison) triggers exactly one flush whose utterance
holds all 31 buffered frames — the 25 loud ones plus the 6 trailing
silent ones — after which buffer and counter are reset. -/
theorem C1_amended_flush :
    Config.silenceThresholdFrames = 5 ∧
    (segRun (List.replicate 25 loudFrame ++ List.replicate 5 silentFrame)
        ⟨[], 0⟩).2 = [] ∧
    (segRun (List.replicate 25 loudFrame ++ List.replicate 6 silentFrame)
        ⟨[], 0⟩).2
      = [List.replicate 25 loudFrame ++ List.replicate 6 silentFrame] ∧
    (segRun (List.replicate 25 loudFrame ++ List.replicate 6 silentFrame)
        ⟨[], 0⟩).1 = ⟨[], 0⟩ := by
  decide

/-! ## Claim C2 -/

/-- C2: for every provider binding and every request outcome, the
streaming generator lets no exception escape, and on failure the yielded
fragments are the pre-failure chunks followed by exactly one terminal
`<Provider> Error: <message>` fragment. -/
theorem C2_stream_never_raises :
    ∀ inv : Invocation,
      (getStreamingResponse inv).2 = none ∧
      (isFailure inv = true →
        (getStreamingResponse inv).1 = preYields inv ++ [errorFragment inv]) := by
  intro inv
  cases inv with
  | openai t h o =>
    cases o with
    | ok cs => exact ⟨rfl, fun hf => by simp [isFailure] at hf⟩
    | fail cs e => exact ⟨rfl, fun _ => rfl⟩
  | groq t h o =>
    cases o with
    | ok cs => exact ⟨rfl, fun hf => by simp [isFailure] at hf⟩
    | fail cs e => exact ⟨rfl, fun _ => rfl⟩
  | gemini t h o =>
    cases o with
    | ok cs => exact ⟨rfl, fun hf => by simp [isFailure] at hf⟩
    | fail cs e => exact ⟨rfl, fun _ => rfl⟩
  | ollama t h o =>
    cases o with
    | ok cs => exact ⟨rfl, fun hf => by simp [isFailure] at hf⟩
    | fail cs e => exact ⟨rfl, fun _ => rfl⟩
  | cohere t h o =>
    cases o with
    | ok cs => exact ⟨rfl, fun hf => by simp [isFailure] at hf⟩
    | fail cs e => exact ⟨rfl, fun _ => rfl⟩
  | huggingface t h o =>
    cases o with
    | ok r => exact ⟨rfl, fun hf => by simp [isFailure] at hf⟩
    | httpErr st body => exact ⟨rfl, fun _ => rfl⟩
    | exn e => exact ⟨rfl, fun _ => rfl⟩

/-- C2, witness at a concrete failing OpenAI call. -/
theorem C2_stream_never_raises_witness :
    isFailure (Invocation.openai "hi" [] (.fail [] "boom")) = true ∧
    (getStreamingResponse (Invocation.openai "hi" [] (.fail [] "boom"))).2 = none ∧
    (getStreamingResponse (Invocation.openai "hi" [] (.fail [] "boom"))).1
      = preYields (Invocation.openai "hi" [] (.fail [] "boom"))
        ++ [errorFragment (Invocation.openai "hi" [] (.fail [] "boom"))] :=
  ⟨by decide,
   (C2_stream_never_raises (Invocation.openai "hi" [] (.fail [] "boom"))).1,
   (C2_stream_never_raises (Invocation.openai "hi" [] (.fail [] "boom"))).2 (by decide)⟩

/-! ## Claim C4 -/

/-- C4, counterexample: on the HuggingFace simulated path the reply
`"hi"` is re-emitted as the single fragment `"hi "`, so the
concatenation of the yielded fragments differs from the full reply. -/
theorem C4_counterexample :
    fullReply (Invocation.huggingface "q" [] (.ok (.listRes (some "hi"))))
        = some "hi" ∧
    joinStr (getStreamingResponse
        (Invocation.huggingface "q" [] (.ok (.listRes (some "hi"))))).1
      ≠ "hi" := by
  exact ⟨rfl, by decide⟩

/-- C4, amended: for the natively streaming providers the concatenation
of the yielded fragments equals the provider's full reply; for the
simulated HuggingFace path it instead equals the reply split into words
and rejoined with a trailing space per word. -/
theorem C4_amended_concat :
    ∀ (inv : Invocation) (r : String), fullReply inv = some r →
      joinStr (getStreamingResponse inv).1
        = (if isSimulated inv then simulatedJoin r else r) := by
  intro inv r hr
  cases inv with
  | openai t h o =>
    cases o with
    | ok cs =>
      obtain rfl := Option.some.inj hr
      simpa [getStreamingResponse, tryWrap, providerBody, isSimulated] using
        joinStr_filterMap_openaiChunk cs
    | fail cs e => exact absurd hr (by simp [fullReply])
  | groq t h o =>
    cases o with
    | ok cs =>
      obtain rfl := Option.some.inj hr
      simpa [getStreamingResponse, tryWrap, providerBody, isSimulated] using
        joinStr_filterMap_openaiChunk cs
    | fail cs e => exact absurd hr (by simp [fullReply])
  | gemini t h o =>
    cases o with
    | ok cs =>
      obtain rfl := Option.some.inj hr
      simpa [getStreamingResponse, tryWrap, providerBody, isSimulated] using
        joinStr_filterMap_geminiChunk cs
    | fail cs e => exact absurd hr (by simp [fullReply])
  | ollama t h o =>
    cases o with
    | ok ls =>
      obtain rfl := Option.some.inj hr
      simp [getStreamingResponse, tryWrap, providerBody, isSimulated]
    | fail cs e => exact absurd hr (by simp [fullReply])
  | cohere t h o =>
    cases o with
    | ok ls =>
      obtain rfl := Option.some.inj hr
      simp [getStreamingResponse, tryWrap, providerBody, isSimulated]
    | fail cs e => exact absurd hr (by simp [fullReply])
  | huggingface t h o =>
    cases o with
    | ok res =>
      obtain rfl := Option.some.inj hr
      simp [getStreamingResponse, hfStream, isSimulated, simulatedJoin]
    | httpErr st body => exact absurd hr (by simp [fullReply])
    | exn e => exact absurd hr (by simp [fullReply])

/-- C4, witness at a concrete successful OpenAI call (a `None` delta and
an empty-string delta interleaved with real content). -/
theorem C4_amended_concat_witness :
    fullReply (Invocation.openai "q" [] (.ok [some "a", none, some "", some "b"]))
        = some "ab" ∧
    joinStr (getStreamingResponse
        (Invocation.openai "q" [] (.ok [some "a", none, some "", some "b"]))).1
      = (if isSimulated (Invocation.openai "q" [] (.ok [some "a", none, some "", some "b"]))
         then simulatedJoin "ab" else "ab") :=
  ⟨by decide,
   C4_amended_concat (Invocation.openai "q" [] (.ok [some "a", none, some "", some "b"]))
     "ab" (by decide)⟩

/-! ## Claim C3 -/

/-- C3: a `set_model` request whose identifier is not in the allow-list
is answered with an `error` event and leaves the whole session state
(client, model config, history, last-switch time) unchanged. -/
theorem C3_reject_unknown_model :
    ∀ (env : Env) (now : Rat) (s : Session) (id : String),
      id ∉ availableModels env →
      handleModelChange env now (some id) s
        = (s, [Event.error ("Invalid or disallowed model: " ++ id)]) := by
  intro env now s id h
  unfold handleModelChange
  rw [if_pos (Or.inr (by simpa [modelIdStr] using h))]
  rfl

/-- C3, witness at a concrete disallowed identifier. -/
theorem C3_reject_unknown_model_witness :
    "bogus" ∉ availableModels env0 ∧
    handleModelChange env0 0 (some "bogus") session0
      = (session0, [Event.error ("Invalid or disallowed model: " ++ "bogus")]) :=
  ⟨by decide, C3_reject_unknown_model env0 0 session0 "bogus" (by decide)⟩

/-! ## Claim C5 -/

/-- C5, counterexample: a `set_model` for an allow-listed model whose
provider credential is missing yields the `error` event, but the
session's recorded last-switch time IS mutated (stamped before the
factory call), contradicting the claim's no-state-mutation clause. -/
theorem C5_counterexample :
    (handleModelChange env0 10 (some "openai/gpt-3.5-turbo") session0).2
      = [Event.error
          "Model switch failed: OPENAI_API_KEY is not set in environment variables"] ∧
    (handleModelChange env0 10 (some "openai/gpt-3.5-turbo") session0).1.lastModelSwitch
      = 10 ∧
    session0.lastModelSwitch = 0 := by
  have h1 : ¬ (modelFalsy (some "openai/gpt-3.5-turbo") = true ∨
      modelIdStr (some "openai/gpt-3.5-turbo") ∉ availableModels env0) := by
    decide
  have h2 : ¬ ((10 : Rat) - session0.lastModelSwitch < 2) := by
    norm_num [session0]
  have h3 : createLlmClient env0 "openai/gpt-3.5-turbo"
      = .error "OPENAI_API_KEY is not set in environment variables" := by
    rfl
  have hmain : handleModelChange env0 10 (some "openai/gpt-3.5-turbo") session0
      = (⟨session0.history, session0.client, session0.modelConfig, 10⟩,
         [Event.error
           "Model switch failed: OPENAI_API_KEY is not set in environment variables"]) := by
    unfold handleModelChange
    rw [if_neg h1, if_neg h2]
    simp only [modelIdStr]
    rw [h3]
    rfl
  rw [hmain]
  exact ⟨rfl, rfl, rfl⟩

/-- C5, amended: an unknown/disallowed identifier or a rate-limited
switch yields an `error` event with no state mutation at all; a factory
failure (missing credentials) yields an `error` event and leaves the
active client and model config unchanged, but the session's recorded
last-switch time is updated to the request time before the factory runs. -/
theorem C5_amended_validation :
    (∀ (env : Env) (now : Rat) (s : Session) (id : String),
        id ∉ availableModels env →
        handleModelChange env now (some id) s
          = (s, [Event.error ("Invalid or disallowed model: " ++ id)])) ∧
    (∀ (env : Env) (now : Rat) (s : Session) (mf : Option String),
        modelFalsy mf = false → modelIdStr mf ∈ availableModels env →
        now - s.lastModelSwitch < 2 →
        handleModelChange env now mf s
          = (s, [Event.error "Model switching too frequently. Please wait a moment."])) ∧
    (∀ (env : Env) (now : Rat) (s : Session) (id e : String),
        id ∈ availableModels env → id ≠ "" →
        ¬ (now - s.lastModelSwitch < 2) →
        createLlmClient env id = .error e →
        handleModelChange env now (some id) s
          = (⟨s.history, s.client, s.modelConfig, now⟩,
             [Event.error ("Model switch failed: " ++ e)])) := by
  refine ⟨?_, ?_, ?_⟩
  · intro env now s id h
    unfold handleModelChange
    rw [if_pos (Or.inr (by simpa [modelIdStr] using h))]
    rfl
  · intro env now s mf hfal hmem hcool
    unfold handleModelChange
    rw [if_neg (by simp [hfal, hmem]), if_pos hcool]
  · intro env now s id e hmem hne hcool herr
    unfold handleModelChange
    rw [if_neg (by simp [modelFalsy, modelIdStr, hne, hmem]), if_neg hcool]
    simp only [modelIdStr]
    rw [herr]

/-- C5, witness at the concrete factory-failure instance. -/
theorem C5_amended_validation_witness :
    "openai/gpt-3.5-turbo" ∈ availableModels env0 ∧
    "openai/gpt-3.5-turbo" ≠ "" ∧
    ¬ ((10 : Rat) - session0.lastModelSwitch < 2) ∧
    createLlmClient env0 "openai/gpt-3.5-turbo"
      = .error "OPENAI_API_KEY is not set in environment variables" ∧
    handleModelChange env0 10 (some "openai/gpt-3.5-turbo") session0
      = (⟨session0.history, session0.client, session0.modelConfig, 10⟩,
         [Event.error
           "Model switch failed: OPENAI_API_KEY is not set in environment variables"]) :=
  ⟨by decide, by decide, by norm_num [session0], by rfl,
   C5_amended_validation.2.2 env0 10 session0 "openai/gpt-3.5-turbo"
     "OPENAI_API_KEY is not set in environment variables"
     (by decide) (by decide) (by norm_num [session0]) (by rfl)⟩

/-! ## Claim C6 -/

/-- C6: when a valid switch succeeds at `t1` and a second allow-listed
switch arrives at `t2` with `t2 - t1 < 2`, the second request is
answered with the cooldown `error` event and the session keeps the
client installed by the first request. -/
theorem C6_cooldown_rejects_second :
    ∀ (env : Env) (s : Session) (id1 id2 : String) (t1 t2 : Rat) (c : Client),
      id1 ∈ availableModels env → id1 ≠ "" →
      ¬ (t1 - s.lastModelSwitch < 2) →
      createLlmClient env id1 = .ok c →
      id2 ∈ availableModels env → id2 ≠ "" →
      t2 - t1 < 2 →
      (handleModelChange env t1 (some id1) s).2
          = [Event.modelChanged (oldModelOf s) id1] ∧
      (handleModelChange env t1 (some id1) s).1.client = some c ∧
      handleModelChange env t2 (some id2) (handleModelChange env t1 (some id1) s).1
        = ((handleModelChange env t1 (some id1) s).1,
           [Event.error "Model switching too frequently. Please wait a moment."]) := by
  intro env s id1 id2 t1 t2 c hmem1 hne1 hcool1 hok hmem2 hne2 hlt
  have h1 : handleModelChange env t1 (some id1) s
      = (⟨s.history, some c, getModelConfig id1, t1⟩,
         [Event.modelChanged (oldModelOf s) id1]) := by
    unfold handleModelChange
    rw [if_neg (by simp [modelFalsy, modelIdStr, hne1, hmem1]), if_neg hcool1]
    simp only [modelIdStr]
    rw [hok]
  rw [h1]
  refine ⟨rfl, rfl, ?_⟩
  unfold handleModelChange
  rw [if_neg (by simp [modelFalsy, modelIdStr, hne2, hmem2])]
  rw [if_pos (by simpa using hlt)]

/-- C6, witness: two Groq switches at times 5 and 6 on a fresh session. -/
theorem C6_cooldown_rejects_second_witness :
    "groq/llama-3.1-8b-instant" ∈ availableModels envGroq ∧
    ¬ ((5 : Rat) - session0.lastModelSwitch < 2) ∧
    createLlmClient envGroq "groq/llama-3.1-8b-instant"
      = .ok ⟨"groq", "llama-3.1-8b-instant"⟩ ∧
    (6 : Rat) - 5 < 2 ∧
    (handleModelChange envGroq 5 (some "groq/llama-3.1-8b-instant") session0).2
        = [Event.modelChanged (oldModelOf session0) "groq/llama-3.1-8b-instant"] ∧
    (handleModelChange envGroq 5 (some "groq/llama-3.1-8b-instant") session0).1.client
        = some ⟨"groq", "llama-3.1-8b-instant"⟩ ∧
    handleModelChange envGroq 6 (some "groq/llama-3.1-8b-instant")
        (handleModelChange envGroq 5 (some "groq/llama-3.1-8b-instant") session0).1
      = ((handleModelChange envGroq 5 (some "groq/llama-3.1-8b-instant") session0).1,
         [Event.error "Model switching too frequently. Please wait a moment."]) := by
  have h := C6_cooldown_rejects_second envGroq session0
    "groq/llama-3.1-8b-instant" "groq/llama-3.1-8b-instant" 5 6
    ⟨"groq", "llama-3.1-8b-instant"⟩
    (by decide) (by decide) (by norm_num [session0]) (by rfl)
    (by decide) (by decide) (by norm_num)
  exact ⟨by decide, by norm_num [session0], by rfl, by norm_num, h.1, h.2.1, h.2.2⟩

/-! ## Claim C7 -/

/-- C7, counterexample: on an empty history the HuggingFace prompt is
its own preamble plus the user turn, the Gemini prompt is the base
preamble plus the user turn, and the two preambles differ — the system
instruction is not identical across providers. -/
theorem C7_counterexample :
    buildHfPrompt "hi" [] = hfPreamble ++ "Human: " ++ "hi" ++ "\nAssistant:" ∧
    buildGeminiPrompt "hi" [] = geminiPreamble ++ "Human: " ++ "hi" ++ "\nAssistant:" ∧
    hfPreamble ≠ geminiPreamble := by
  decide

/-- Cohere renders only user/assistant history entries; the rendered
contents form a sublist of the history contents. -/
theorem cohereEntry_snd_sublist :
    ∀ l : List Msg, ((l.filterMap cohereEntry).map Prod.snd).Sublist (l.map Msg.content) := by
  intro l
  induction l with
  | nil => exact List.Sublist.refl _
  | cons m l ih =>
    by_cases h1 : m.role = "user"
    · simpa [cohereEntry, h1] using ih.cons₂ m.content
    · by_cases h2 : m.role = "assistant"
      · simpa [cohereEntry, h1, h2] using ih.cons₂ m.content
      · simpa [cohereEntry, h1, h2] using ih.cons m.content

/-- C7, amended: OpenAI/Groq/Ollama and Gemini prepend the same fixed
system instruction, HuggingFace prepends its own shorter variant, and
Cohere prepends none (its chat history only re-renders conversation
entries); each builder truncates to its provider window (10, 6, 4 and 6
most recent entries respectively). -/
theorem C7_amended_preamble_windows :
    (∀ (t : String) (h : List Msg),
        (buildMessages t h).head? = some (Msg.mk "system" baseSystemContent)) ∧
    (∀ (t : String) (h : List Msg),
        ∃ q, buildGeminiPrompt t h = geminiPreamble ++ q) ∧
    (∀ (t : String) (h : List Msg),
        ∃ q, buildHfPrompt t h = hfPreamble ++ q) ∧
    (∀ (t : String) (h : List Msg),
        ∃ q, messagesToPrompt (buildMessages t h)
          = "System: " ++ baseSystemContent ++ "\n\n" ++ q) ∧
    hfPreamble ≠ geminiPreamble ∧
    (∀ (t : String) (h : List Msg),
        buildMessages t h = buildMessages t (pySliceLast h 10)) ∧
    (∀ (t : String) (h : List Msg),
        buildGeminiPrompt t h = buildGeminiPrompt t (pySliceLast h 6)) ∧
    (∀ (t : String) (h : List Msg),
        buildHfPrompt t h = buildHfPrompt t (pySliceLast h 4)) ∧
    (∀ h : List Msg, cohereChatHistory h = cohereChatHistory (pySliceLast h 6)) ∧
    (∀ h : List Msg,
        ((cohereChatHistory h).map Prod.snd).Sublist (h.map Msg.content)) := by
  refine ⟨?_, ?_, ?_, ?_, by decide, ?_, ?_, ?_, ?_, ?_⟩
  · intro t h; rfl
  · intro t h
    obtain ⟨q, hq⟩ := foldl_str_ext promptStep promptStep_ext (pySliceLast h 6) geminiPreamble
    refine ⟨q ++ ("Human: " ++ t ++ "\nAssistant:"), ?_⟩
    unfold buildGeminiPrompt
    rw [hq]
    simp [String.append_assoc]
  · intro t h
    obtain ⟨q, hq⟩ := foldl_str_ext promptStep promptStep_ext (pySliceLast h 4) hfPreamble
    refine ⟨q ++ ("Human: " ++ t ++ "\nAssistant:"), ?_⟩
    unfold buildHfPrompt
    rw [hq]
    simp [String.append_assoc]
  · intro t h
    obtain ⟨q, hq⟩ := foldl_str_ext ollamaStep ollamaStep_ext
      (pySliceLast h 10 ++ [Msg.mk "user" t])
      (ollamaStep "" (Msg.mk "system" baseSystemContent))
    refine ⟨q ++ "Assistant: ", ?_⟩
    unfold messagesToPrompt buildMessages
    rw [List.cons_append, List.foldl_cons, hq]
    have hstep : ollamaStep "" (Msg.mk "system" baseSystemContent)
        = "System: " ++ baseSystemContent ++ "\n\n" := by decide
    rw [hstep]
    simp [String.append_assoc]
  · intro t h
    unfold buildMessages
    rw [pySliceLast_idem]
  · intro t h
    unfold buildGeminiPrompt
    rw [pySliceLast_idem]
  · intro t h
    unfold buildHfPrompt
    rw [pySliceLast_idem]
  · intro h
    unfold cohereChatHistory
    rw [pySliceLast_idem]
  · intro h
    unfold cohereChatHistory pySliceLast
    exact (cohereEntry_snd_sublist _).trans ((List.drop_sublist _ _).map Msg.content)

/-! ## Claim C8 -/

/-- C8: `handle_transcription` appends the user entry to the history
before invoking the client, and `_build_messages` appends the same text
again after the truncated history, so the message list sent to the
provider ends with the new user entry twice. -/
theorem C8_user_text_duplicated :
    ∀ (s : Session) (text : String),
      ∃ pre, buildMessages text (providerCallHistory s text)
        = pre ++ [Msg.mk "user" text, Msg.mk "user" text] := by
  intro s text
  have hk : (s.history ++ [Msg.mk "user" text]).length - 10 ≤ s.history.length := by
    rw [List.length_append]
    simp
  refine ⟨Msg.mk "system" baseSystemContent ::
    s.history.drop ((s.history ++ [Msg.mk "user" text]).length - 10), ?_⟩
  unfold buildMessages providerCallHistory pySliceLast
  rw [List.drop_append_of_le_length hk]
  simp [List.cons_append, List.append_assoc]

/-! ## Claim C9 -/

/-- Folding the broadcast over connections not containing `c` leaves
`c`'s session untouched. -/
theorem broadcast_sessions_stable (text : String) (replies : Nat → List String) :
    ∀ (l : List Nat) (acc : Manager × List (Nat × Event)) (c : Nat), c ∉ l →
      (l.foldl (broadcastStep text replies) acc).1.sessions c = acc.1.sessions c := by
  intro l
  induction l with
  | nil => intro acc c _; rfl
  | cons a l ih =>
    intro acc c hc
    rw [List.foldl_cons, ih _ c (fun h => hc (List.mem_cons_of_mem a h))]
    have hca : c ≠ a := fun h => hc (h ▸ List.mem_cons_self a l)
    simp [broadcastStep, updateAt, hca]

/-- The broadcast fold only appends to the event log. -/
theorem broadcast_events_mono (text : String) (replies : Nat → List String) :
    ∀ (l : List Nat) (acc : Manager × List (Nat × Event)),
      ∃ t, (l.foldl (broadcastStep text replies) acc).2 = acc.2 ++ t := by
  intro l
  induction l with
  | nil => intro acc; exact ⟨[], (List.append_nil _).symm⟩
  | cons a l ih =>
    intro acc
    obtain ⟨t, ht⟩ := ih (broadcastStep text replies acc a)
    rw [List.foldl_cons]
    refine ⟨(handleTranscription text (replies a) (acc.1.sessions a)).2.map
      (fun e => (a, e)) ++ t, ?_⟩
    rw [ht]
    simp [broadcastStep, List.append_assoc]

/-- Every connection in a duplicate-free fold list gets its history
extended and its transcription event recorded. -/
theorem broadcast_run (text : String) (replies : Nat → List String) :
    ∀ (l : List Nat) (acc : Manager × List (Nat × Event)) (c : Nat),
      l.Nodup → c ∈ l →
      ((l.foldl (broadcastStep text replies) acc).1.sessions c).history
          = (acc.1.sessions c).history
            ++ [Msg.mk "user" text, Msg.mk "assistant" (joinStr (replies c))]
        ∧ (c, Event.transcription text) ∈ (l.foldl (broadcastStep text replies) acc).2 := by
  intro l
  induction l with
  | nil => intro acc c _ hc; cases hc
  | cons a l ih =>
    intro acc c hnd hc
    rw [List.foldl_cons]
    rcases List.mem_cons.mp hc with rfl | hcl
    · have ha : c ∉ l := (List.nodup_cons.mp hnd).1
      constructor
      · rw [broadcast_sessions_stable text replies l _ c ha]
        simp [broadcastStep, updateAt, handleTranscription, providerCallHistory,
          List.append_assoc]
      · obtain ⟨t, ht⟩ := broadcast_events_mono text replies l
          (broadcastStep text replies acc c)
        rw [ht]
        apply List.mem_append_left
        simp [broadcastStep, handleTranscription]
    · have hca : c ≠ a := fun h => (List.nodup_cons.mp hnd).1 (h ▸ hcl)
      have hres := ih (broadcastStep text replies acc a) c (List.nodup_cons.mp hnd).2 hcl
      have hsess : (broadcastStep text replies acc a).1.sessions c = acc.1.sessions c := by
        simp [broadcastStep, updateAt, hca]
      rw [hsess] at hres
      exact hres

/-- C9: `broadcast_transcription` delivers each utterance to every
active connection — each connected session's history gains the user
entry and that session's own assistant reply, and each connection is
sent the transcription event. -/
theorem C9_broadcast_all_connections :
    ∀ (m : Manager) (text : String) (replies : Nat → List String) (c : Nat),
      m.active.Nodup → c ∈ m.active →
      ((broadcastTranscription text replies m).1.sessions c).history
          = (m.sessions c).history
            ++ [Msg.mk "user" text, Msg.mk "assistant" (joinStr (replies c))]
        ∧ (c, Event.transcription text) ∈ (broadcastTranscription text replies m).2 := by
  intro m text replies c hnd hc
  exact broadcast_run text replies m.active (m, []) c hnd hc

/-- C9, witness on a two-connection manager, checked at connection 1. -/
theorem C9_broadcast_all_connections_witness :
    manager0.active.Nodup ∧ 1 ∈ manager0.active ∧
    (((broadcastTranscription "hi" (fun _ => ["ok", "!"]) manager0).1.sessions 1).history
        = (manager0.sessions 1).history
          ++ [Msg.mk "user" "hi", Msg.mk "assistant" (joinStr ((fun _ => ["ok", "!"]) 1))]
      ∧ (1, Event.transcription "hi")
          ∈ (broadcastTranscription "hi" (fun _ => ["ok", "!"]) manager0).2) :=
  ⟨by decide, by decide,
   C9_broadcast_all_connections manager0 "hi" (fun _ => ["ok", "!"]) 1
     (by decide) (by decide)⟩

/-! ## Claim C10 -/

/-- C10: a `text_input` whose content is missing, empty, or whitespace
only produces no events and leaves the session untouched. -/
theorem C10_blank_text_noop :
    ∀ (env : Env) (now : Rat) (reply : List String) (content : Option String) (s : Session),
      pyStrip (content.getD "") = "" →
      handleMessage env now reply (ClientMsg.textInput content) s = (s, []) := by
  intro env now reply content s h
  show (if pyStrip (content.getD "") ≠ "" then
          handleTranscription (content.getD "") reply s
        else (s, [])) = (s, [])
  rw [if_neg (fun hn => hn h)]

/-- C10, witness at a whitespace-only input. -/
theorem C10_blank_text_noop_witness :
    pyStrip ((some "   ").getD "") = "" ∧
    handleMessage env0 0 [] (ClientMsg.textInput (some "   ")) session0
      = (session0, []) :=
  ⟨by decide, C10_blank_text_noop env0 0 [] (some "   ") session0 (by decide)⟩
